import Mathlib

/-
Verification of the radar signal processor (src/radar_signal_processor.py).

The program is a stateless per-packet pipeline:
  `analyze_packet` extracts fields from an incoming key-value packet
  (defaulting `rssi` to -100 and `ssid` to "N/A" when absent), classifies
  the signal strength with `_calculate_proximity`, and dispatches with
  `_trigger_events`; any exception raised during extraction (in the source,
  only the `int(...)` coercion of a present but non-numeric `rssi` can
  raise) is caught at the per-packet boundary and logged.

The embedding below mirrors the source line by line.  `_calculate_proximity`
returns the exact strings of the source; `_trigger_events` branches on the
same substring tests ("NOISE" in distance, "IMMEDIATE" in distance) that the
source uses.  The spec-level notions (the four-valued `ProximityCategory`
and `classify`) are defined alongside and connected to the string-level code
by proved lemmas.
-/

namespace RadarSignalProcessor

/-- Signal strength threshold for the IMMEDIATE band (source line 13). -/
def RSSI_THRESHOLD_IMMEDIATE : Int := -45

/-- Signal strength threshold for the NEAR band (source line 14). -/
def RSSI_THRESHOLD_NEAR : Int := -65

/-- Signal strength threshold for the FAR band (source line 15). -/
def RSSI_THRESHOLD_FAR : Int := -75

/-- The watch list of device MAC addresses (source line 18). -/
def WATCH_LIST : List String := ["00:11:22:33:44:55", "AA:BB:CC:DD:EE:FF"]

/-- Substring test, modelling Python `needle in haystack` on strings. -/
def str_contains (needle hay : String) : Bool :=
  decide (needle.toList <:+: hay.toList)

/-- The classifier of source lines 40-51, returning the exact strings the
source returns. -/
def calculate_proximity (rssi : Int) : String :=
  if rssi ≥ RSSI_THRESHOLD_IMMEDIATE then
    "IMMEDIATE (< 2m)"
  else if rssi ≥ RSSI_THRESHOLD_NEAR then
    "NEAR (2m - 10m)"
  else if rssi ≥ RSSI_THRESHOLD_FAR then
    "FAR (> 10m)"
  else
    "NOISE (Weak signal - Ignore)"

/-- Spec-level proximity category: the four mutually exclusive variants the
four return strings of `calculate_proximity` denote. -/
inductive ProximityCategory
  | Immediate
  | Near
  | Far
  | Noise
deriving DecidableEq

/-- Category-level view of the classifier: the same threshold chain as
`calculate_proximity` (source lines 44-51), with each distinct return string
abstracted to its category. -/
def classify (rssi : Int) : ProximityCategory :=
  if rssi ≥ RSSI_THRESHOLD_IMMEDIATE then
    .Immediate
  else if rssi ≥ RSSI_THRESHOLD_NEAR then
    .Near
  else if rssi ≥ RSSI_THRESHOLD_FAR then
    .Far
  else
    .Noise

/-- The string `calculate_proximity` returns for each category. -/
def categoryLabel : ProximityCategory → String
  | .Immediate => "IMMEDIATE (< 2m)"
  | .Near => "NEAR (2m - 10m)"
  | .Far => "FAR (> 10m)"
  | .Noise => "NOISE (Weak signal - Ignore)"

/-- Rank of a category in the total order Noise < Far < Near < Immediate. -/
def categoryRank : ProximityCategory → Nat
  | .Noise => 0
  | .Far => 1
  | .Near => 2
  | .Immediate => 3

theorem calculate_proximity_label (rssi : Int) :
    calculate_proximity rssi = categoryLabel (classify rssi) := by
  unfold calculate_proximity classify
  split_ifs <;> rfl

/-- Membership of a possibly-absent device MAC in the watch list, modelling
Python `mac in self.WATCH_LIST` where `mac` may be `None` (source line 65).
`None` is never equal to a string, so an absent MAC is never a member. -/
def optInWatch : Option String → Bool
  | some m => WATCH_LIST.contains m
  | none => false

/-- The action observable from `_trigger_events` (source lines 53-76):
an early return on noise (Suppressed), a warning log for a watch-list hit
(Alert, carrying the formatted fields of source line 62), an info log for an
IMMEDIATE signal (Activity, which additionally reports the probed ssid), or
the deliberate no-op `pass` branch (NoAction). -/
inductive Action
  | Suppressed
  | Alert (mac : Option String) (rssi : Int) (distance : String) (apMac : Option String)
  | Activity (mac : Option String) (rssi : Int) (distance : String) (apMac : Option String)
      (ssid : String)
  | NoAction
deriving DecidableEq

/-- The dispatcher of source lines 53-76: the noise filter first, then the
watch-list test, then the IMMEDIATE test, else the no-op branch.  The
branches test substrings of the distance string exactly as the source does. -/
def trigger_events (mac : Option String) (rssi : Int) (distance : String)
    (ap_mac : Option String) (ssid : String) : Action :=
  if str_contains "NOISE" distance then
    .Suppressed
  else if optInWatch mac then
    .Alert mac rssi distance ap_mac
  else if str_contains "IMMEDIATE" distance then
    .Activity mac rssi distance ap_mac ssid
  else
    .NoAction

/-- A JSON-like field value carried by an incoming packet: a number or a
string.  Python `int(...)` succeeds on an integer and on a decimal integer
string and raises otherwise; `coerce_int` models this. -/
inductive JVal
  | jInt (n : Int)
  | jStr (s : String)
deriving DecidableEq

/-- Value of a decimal digit character, none for a non-digit. -/
def digitVal (c : Char) : Option Nat :=
  if c.isDigit then some (c.toNat - 48) else none

/-- Decimal value of a nonempty all-digit character list, none otherwise. -/
def parseNatDigits : List Char → Option Nat
  | [] => none
  | cs =>
      cs.foldl (fun acc c => acc.bind (fun n => (digitVal c).map (fun d => n * 10 + d)))
        (some 0)

/-- Decimal integer denoted by a string, with an optional sign: the strings
Python `int(...)` accepts (whitespace trimming aside, which no claim
touches). -/
def str_to_int (s : String) : Option Int :=
  match s.toList with
  | '-' :: rest => (parseNatDigits rest).map (fun n => -(n : Int))
  | '+' :: rest => (parseNatDigits rest).map (fun n => (n : Int))
  | cs => (parseNatDigits cs).map (fun n => (n : Int))

/-- Model of Python `int(v)` on a packet field value: the identity on an
integer, decimal parsing on a string, `none` when the coercion raises. -/
def coerce_int : JVal → Option Int
  | .jInt n => some n
  | .jStr s => str_to_int s

/-- An incoming data packet: a key-value record whose fields may each be
absent, as accessed with `data_packet.get` in source lines 26-29. -/
structure DataPacket where
  deviceMac : Option String
  rssi : Option JVal
  apMac : Option String
  ssid : Option String
deriving DecidableEq

/-- Outcome of `analyze_packet`: either the action the dispatcher took, or
the error path of source lines 37-38 (the exception caught at the per-packet
boundary and logged). -/
inductive AnalyzeResult
  | ok (act : Action)
  | errorLogged
deriving DecidableEq

/-- The per-packet pipeline of source lines 20-38: extract the fields
(`rssi` defaulting to -100 and `ssid` to "N/A" when absent), classify, and
dispatch; a failing `int(...)` coercion of a present `rssi` value is the
only raising step, and the surrounding try/except turns it into
`errorLogged` instead of propagating. -/
def analyze_packet (p : DataPacket) : AnalyzeResult :=
  match coerce_int (p.rssi.getD (.jInt (-100))) with
  | none => .errorLogged
  | some rssi =>
      let mac_address := p.deviceMac
      let detecting_ap := p.apMac
      let ssid_probed := p.ssid.getD "N/A"
      let distance_category := calculate_proximity rssi
      .ok (trigger_events mac_address rssi distance_category detecting_ap ssid_probed)

theorem trigger_events_cases (mac : Option String) (rssi : Int)
    (ap : Option String) (ssid : String) :
    trigger_events mac rssi (calculate_proximity rssi) ap ssid =
      if classify rssi = .Noise then .Suppressed
      else if optInWatch mac then .Alert mac rssi (calculate_proximity rssi) ap
      else if classify rssi = .Immediate then
        .Activity mac rssi (calculate_proximity rssi) ap ssid
      else .NoAction := by
  rw [calculate_proximity_label]
  cases h : classify rssi <;>
    simp [trigger_events, categoryLabel, show str_contains "NOISE" "IMMEDIATE (< 2m)" = false from by decide, show str_contains "NOISE" "NEAR (2m - 10m)" = false from by decide, show str_contains "NOISE" "FAR (> 10m)" = false from by decide, show str_contains "NOISE" "NOISE (Weak signal - Ignore)" = true from by decide, show str_contains "IMMEDIATE" "IMMEDIATE (< 2m)" = true from by decide, show str_contains "IMMEDIATE" "NEAR (2m - 10m)" = false from by decide, show str_contains "IMMEDIATE" "FAR (> 10m)" = false from by decide]

/-- Claim C1: for every integer signal strength s, classify returns exactly
one of Immediate, Near, Far, Noise, following the threshold chain
(Immediate when s >= -45, else Near when s >= -65, else Far when s >= -75,
else Noise); the resulting ranges partition the integers with no gaps and
no overlaps. -/
theorem classify_partitions (s : Int) :
    (classify s = .Immediate ↔ -45 ≤ s) ∧
    (classify s = .Near ↔ -65 ≤ s ∧ s < -45) ∧
    (classify s = .Far ↔ -75 ≤ s ∧ s < -65) ∧
    (classify s = .Noise ↔ s < -75) := by
  unfold classify RSSI_THRESHOLD_IMMEDIATE RSSI_THRESHOLD_NEAR RSSI_THRESHOLD_FAR
  split_ifs with h1 h2 h3 <;> refine ⟨?_, ?_, ?_, ?_⟩ <;> simp <;> omega

/-- Claim C2: at the three threshold boundaries the classifier returns
Immediate at -45, Near at -46 and -65, Far at -66 and -75, Noise at -76. -/
theorem classify_boundaries :
    classify (-45) = .Immediate ∧ classify (-46) = .Near ∧
    classify (-65) = .Near ∧ classify (-66) = .Far ∧
    classify (-75) = .Far ∧ classify (-76) = .Noise := by
  decide

/-- Claim C3: whenever the category is Noise, the dispatcher suppresses the
observation (no alert, no activity note), regardless of watch-list
membership of the device. -/
theorem noise_always_suppressed (mac : Option String) (rssi : Int)
    (ap : Option String) (ssid : String) (h : classify rssi = .Noise) :
    trigger_events mac rssi (calculate_proximity rssi) ap ssid = .Suppressed := by
  rw [trigger_events_cases, if_pos h]

/-- Witness for C3: a watch-listed device at signal strength -90 (Noise) is
suppressed, not alerted. -/
theorem noise_always_suppressed_watchlisted :
    classify (-90) = .Noise ∧
    trigger_events (some "00:11:22:33:44:55") (-90) (calculate_proximity (-90))
      (some "AP_Lobby_01") "N/A" = .Suppressed :=
  ⟨by decide, noise_always_suppressed _ _ _ _ (by decide)⟩

/-- Claim C4: whenever the category is not Noise and the device is on the
watch list, the dispatcher raises an Alert carrying the device id, the
signal strength, the category string and the detecting node; the watch-list
branch precedes the IMMEDIATE branch. -/
theorem watchlist_alert (m : String) (rssi : Int) (ap : Option String)
    (ssid : String) (hw : WATCH_LIST.contains m = true)
    (hn : classify rssi ≠ .Noise) :
    trigger_events (some m) rssi (calculate_proximity rssi) ap ssid =
      .Alert (some m) rssi (calculate_proximity rssi) ap := by
  rw [trigger_events_cases, if_neg hn, if_pos (show optInWatch (some m) = true from hw)]

/-- Witness for C4: the watch-listed device at -40 (Immediate) yields an
Alert, not an Activity note. -/
theorem watchlist_alert_at_minus40 :
    WATCH_LIST.contains "00:11:22:33:44:55" = true ∧ classify (-40) ≠ .Noise ∧
    trigger_events (some "00:11:22:33:44:55") (-40) (calculate_proximity (-40))
      (some "AP_Library_Desk") "Library_Guest" =
      .Alert (some "00:11:22:33:44:55") (-40) (calculate_proximity (-40))
        (some "AP_Library_Desk") :=
  ⟨by decide, by decide, watchlist_alert _ _ _ _ (by decide) (by decide)⟩

/-- Claim C5: whenever the device is not on the watch list and the category
is Immediate, the dispatcher records an Activity note carrying the device
id, signal strength, category string, detecting node and the probed network
name. -/
theorem immediate_activity (mac : Option String) (rssi : Int)
    (ap : Option String) (ssid : String) (hw : optInWatch mac = false)
    (hi : classify rssi = .Immediate) :
    trigger_events mac rssi (calculate_proximity rssi) ap ssid =
      .Activity mac rssi (calculate_proximity rssi) ap ssid := by
  rw [trigger_events_cases, if_neg (by simp [hi]), if_neg (by simp [hw]), if_pos hi]

/-- Witness for C5: a non-watch-listed device at -40 (Immediate) yields an
Activity note carrying the probed network name.  (The spec's own example
uses -40 for Immediate elsewhere; -50 would classify as Near.) -/
theorem immediate_activity_at_minus40 :
    optInWatch (some "11:22:33:44:55:66") = false ∧ classify (-40) = .Immediate ∧
    trigger_events (some "11:22:33:44:55:66") (-40) (calculate_proximity (-40))
      (some "AP_Lobby_01") "FreeWiFi" =
      .Activity (some "11:22:33:44:55:66") (-40) (calculate_proximity (-40))
        (some "AP_Lobby_01") "FreeWiFi" :=
  ⟨by decide, by decide, immediate_activity _ _ _ _ (by decide) (by decide)⟩

/-- Claim C8: whenever the device is not on the watch list and the category
is Near or Far, the dispatcher does nothing: no alert, no activity note. -/
theorem near_far_noaction (mac : Option String) (rssi : Int)
    (ap : Option String) (ssid : String) (hw : optInWatch mac = false)
    (h : classify rssi = .Near ∨ classify rssi = .Far) :
    trigger_events mac rssi (calculate_proximity rssi) ap ssid = .NoAction := by
  rcases h with h | h <;> rw [trigger_events_cases] <;> simp [h, hw]

/-- Witness for C8: a non-watch-listed device at -70 (Far) yields nothing. -/
theorem near_far_noaction_at_minus70 :
    optInWatch (some "11:22:33:44:55:66") = false ∧ classify (-70) = .Far ∧
    trigger_events (some "11:22:33:44:55:66") (-70) (calculate_proximity (-70))
      (some "AP_Lobby_01") "FreeWiFi" = .NoAction :=
  ⟨by decide, by decide, near_far_noaction _ _ _ _ (by decide) (Or.inr (by decide))⟩

/-- Claim C6: a packet with no rssi field defaults the signal strength to
-100, which classifies as Noise, so the evaluation always suppresses. -/
theorem missing_rssi_suppressed (p : DataPacket) (h : p.rssi = none) :
    classify (-100) = .Noise ∧ analyze_packet p = .ok .Suppressed := by
  refine ⟨by decide, ?_⟩
  simp only [analyze_packet, h, Option.getD, coerce_int]
  rw [trigger_events_cases]
  simp [show classify (-100) = ProximityCategory.Noise from by decide]

/-- Witness for C6 at a concrete packet lacking the rssi field. -/
theorem missing_rssi_suppressed_example :
    (DataPacket.mk (some "AA:BB:CC:DD:EE:FF") none (some "AP_Lobby_01")
        (some "CorpNet")).rssi = none ∧
    classify (-100) = .Noise ∧
    analyze_packet (DataPacket.mk (some "AA:BB:CC:DD:EE:FF") none
        (some "AP_Lobby_01") (some "CorpNet")) = .ok .Suppressed :=
  ⟨rfl, missing_rssi_suppressed _ rfl⟩

/-- Claim C7: processing a packet takes the logged-error path exactly when
the rssi field is present and its integer coercion fails; absence of
deviceMac, rssi or apMac is defaulted and never raises, and the error never
escapes `analyze_packet` (a total function into `AnalyzeResult`). -/
theorem malformed_rssi_error (p : DataPacket) :
    analyze_packet p = .errorLogged ↔
      ∃ v, p.rssi = some v ∧ coerce_int v = none := by
  unfold analyze_packet
  cases hr : p.rssi with
  | none => simp [coerce_int]
  | some v =>
      simp only [Option.getD]
      cases hc : coerce_int v <;> simp [hc]

/-- Claim C9: the classifier is monotone in signal strength with respect to
the total order Noise < Far < Near < Immediate. -/
theorem classify_monotone (s1 s2 : Int) (h : s1 ≤ s2) :
    categoryRank (classify s1) ≤ categoryRank (classify s2) := by
  unfold classify RSSI_THRESHOLD_IMMEDIATE RSSI_THRESHOLD_NEAR RSSI_THRESHOLD_FAR
  split_ifs <;> simp [categoryRank] <;> omega

/-- Witness for C9 at -70 and -50. -/
theorem classify_monotone_example :
    (-70 : Int) ≤ -50 ∧ categoryRank (classify (-70)) ≤ categoryRank (classify (-50)) :=
  ⟨by decide, classify_monotone (-70) (-50) (by decide)⟩

/-- Counterexample to C10 as stated: a packet with no deviceMac field but a
non-numeric rssi value does take the error path, so absence of deviceMac
alone does not keep a packet off the error path. -/
theorem absent_deviceMac_error_path :
    (DataPacket.mk none (some (.jStr "abc")) (some "AP_Lobby_01")
        (some "FreeWiFi")).deviceMac = none ∧
    analyze_packet (DataPacket.mk none (some (.jStr "abc")) (some "AP_Lobby_01")
        (some "FreeWiFi")) = .errorLogged := by
  refine ⟨rfl, ?_⟩
  decide

/-- Claim C10 amended: a packet whose deviceMac field is absent and whose
rssi extraction succeeds (absent, or present and coercible) is processed
normally: the device id defaults to None, never a watch-list member, and
the outcome is Suppressed, Activity or nothing according to the category
alone — never an Alert. -/
theorem absent_deviceMac_never_alert (p : DataPacket) (r : Int)
    (hmac : p.deviceMac = none)
    (hr : coerce_int (p.rssi.getD (.jInt (-100))) = some r) :
    analyze_packet p =
      .ok (if classify r = .Noise then .Suppressed
           else if classify r = .Immediate then
             .Activity none r (calculate_proximity r) p.apMac (p.ssid.getD "N/A")
           else .NoAction) := by
  simp only [analyze_packet, hr, hmac]
  rw [trigger_events_cases]
  simp [optInWatch]

/-- Witness for the amended C10: a packet with no deviceMac and rssi -50 is
processed to an Activity note, not an Alert. -/
theorem absent_deviceMac_never_alert_example :
    (DataPacket.mk none (some (.jInt (-50))) (some "AP_Lobby_01")
        (some "FreeWiFi")).deviceMac = none ∧
    coerce_int ((DataPacket.mk none (some (.jInt (-50))) (some "AP_Lobby_01")
        (some "FreeWiFi")).rssi.getD (.jInt (-100))) = some (-50) ∧
    analyze_packet (DataPacket.mk none (some (.jInt (-50))) (some "AP_Lobby_01")
        (some "FreeWiFi")) =
      .ok (if classify (-50) = .Noise then .Suppressed
           else if classify (-50) = .Immediate then
             .Activity none (-50) (calculate_proximity (-50)) (some "AP_Lobby_01") "FreeWiFi"
           else .NoAction) :=
  ⟨rfl, rfl, absent_deviceMac_never_alert _ (-50) rfl rfl⟩

end RadarSignalProcessor
